import Mathlib

/-!
# Verification of the movie-dashboard data pipeline (`submission.py`)

A shallow embedding of the single-file Plotly/Dash dashboard:
the pandas cleaning pipeline (lines 10-18), the genre filter
(lines 37-40), the facet-chart builder `create_facet_chart`
(lines 85-113) and the dashboard shell with its single callback
(lines 134-178).  Tabular data is a `List Row`; pandas cell values
are the inductive `Val` (`null` models `NaN`, numeric cells are
rationals, unconverted cells are strings).
-/

/-- A pandas cell: `NaN`/missing, a string, or a numeric value.
Python floats are modelled as rationals (the dataset's values are
decimal literals, which are exact in `ℚ`). -/
inductive Val where
  | null : Val
  | str : String → Val
  | num : ℚ → Val
deriving DecidableEq, Repr

/-- One row of the movie dataset (the columns used by `submission.py`).
`Decade` is absent from the raw file and is added by the pipeline;
it defaults to `null` before that. -/
structure Row where
  Series_Title : Val := .null
  Director : Val := .null
  Genre : Val := .null
  Released_Year : Val := .null
  Runtime : Val := .null
  Gross : Val := .null
  No_of_Votes : Val := .null
  IMDB_Rating : Val := .null
  Meta_score : Val := .null
  Decade : Val := .null
deriving DecidableEq, Repr

/-- Digit accumulator for numeric parsing. -/
def natOfDigits (cs : List Char) : ℕ :=
  cs.foldl (fun a c => a * 10 + (c.toNat - '0'.toNat)) 0

/-- Parsing as in Python `float(s)` / `pd.to_numeric`, for the decimal
literals occurring in this dataset: optional sign, digits, optional
fractional part; anything else (currency symbols, commas, `"N/A"`,
unit suffixes, the empty string) raises / fails.  Exponent notation
and the special forms `inf`/`nan` do not occur in the data and are
not modelled. -/
def parseFloat? (s : String) : Option ℚ :=
  let cs := s.data
  let neg := cs.head? == some '-'
  let cs := if cs.head? == some '-' || cs.head? == some '+' then cs.tail else cs
  let intPart := cs.takeWhile Char.isDigit
  match cs.dropWhile Char.isDigit with
  | [] =>
      if intPart.isEmpty then none
      else
        some (((if neg then -(natOfDigits intPart : ℤ)
                else (natOfDigits intPart : ℤ)) : ℚ))
  | '.' :: frac =>
      if frac.all Char.isDigit && !(intPart.isEmpty && frac.isEmpty) then
        let mag : ℚ :=
          (natOfDigits intPart : ℚ) + (natOfDigits frac : ℚ) / (10 ^ frac.length)
        some (if neg then -mag else mag)
      else none
  | _ => none

/-- Python `str.replace(pat, "")`: delete every non-overlapping
occurrence of `pat`, scanning left to right.  The counter argument
is the number of characters of a just-matched pattern still to be
deleted. -/
def removeAllAux (pat : List Char) : List Char → ℕ → List Char
  | [], _ => []
  | _ :: cs, k + 1 => removeAllAux pat cs k
  | c :: cs, 0 =>
    if pat.isPrefixOf (c :: cs) && !pat.isEmpty then
      removeAllAux pat cs (pat.length - 1)
    else
      c :: removeAllAux pat cs 0

/-- String-level wrapper for `removeAllAux`. -/
def removeAll (pat s : String) : String := ⟨removeAllAux pat.data s.data 0⟩

/-- Model of `re.sub("$", "", s)` — line 11's `.replace('$', '', regex=True)`.
In a regular expression `$` is the *end-of-string anchor*, a
zero-width match: substituting the empty string at that position
returns `s` unchanged.  In particular no literal dollar sign is
removed. -/
def subDollarAnchor (s : String) : String := s

/-- Line 11, regex stage: `.replace(',', '', regex=True)` deletes every
comma of a string cell (the regex `,` matches a literal comma), then
`.replace('$', '', regex=True)` is applied; non-string cells (`NaN`,
numbers) are untouched by `Series.replace`. -/
def grossRegexStage (v : Val) : Val :=
  match v with
  | .str s => .str (subDollarAnchor (removeAll "," s))
  | v => v

/-- One cell of `.astype(float)` on an object column: `NaN` casts to
`nan` (stays null), a number stays itself, a string must parse as a
float or the conversion raises (`none`). -/
def astypeFloatCell : Val → Option Val
  | .null => some .null
  | .num q => some (.num q)
  | .str s => (parseFloat? s).map .num

/-- Convert every element or fail: `none` as soon as one element
fails (the single numpy cast underlying `astype`). -/
def mapOption {α β : Type} (f : α → Option β) : List α → Option (List β)
  | [] => some []
  | a :: l =>
    match f a, mapOption f l with
    | some b, some bs => some (b :: bs)
    | _, _ => none

/-- Line 11 tail, `.astype(float, errors='ignore')` on the Gross column: the
conversion is all-or-nothing — if any cell fails, the exception is
suppressed and the *original* column is returned unchanged. -/
def astypeGross (t : List Row) : List Row :=
  match mapOption (fun r => (astypeFloatCell r.Gross).map
      (fun v => { r with Gross := v })) t with
  | some t' => t'
  | none => t

/-- Line 11:
`data['Gross'] = data['Gross'].replace(',', '', regex=True).replace('$', '', regex=True).astype(float, errors='ignore')`. -/
def cleanGross (t : List Row) : List Row :=
  astypeGross (t.map fun r => { r with Gross := grossRegexStage r.Gross })

/-- Model of `pd.to_numeric(x, errors='coerce')` on one cell: parse failures
become `NaN`. -/
def toNumericCoerce : Val → Val
  | .null => .null
  | .num q => .num q
  | .str s =>
    match parseFloat? s with
    | some q => .num q
    | none => .null

/-- Line 12: `data['No_of_Votes'] = pd.to_numeric(data['No_of_Votes'], errors='coerce')`. -/
def cleanVotes (t : List Row) : List Row :=
  t.map fun r => { r with No_of_Votes := toNumericCoerce r.No_of_Votes }

/-- One cell of `.str.replace(' min', '')`: string cells have every
occurrence of `" min"` deleted; under the `.str` accessor a non-string
cell becomes `NaN`. -/
def stripMin : Val → Val
  | .str s => .str (removeAll " min" s)
  | _ => .null

/-- Line 13 tail, `.astype(float, errors='ignore')` for the Runtime
column (all-or-nothing, as for Gross). -/
def astypeRuntime (t : List Row) : List Row :=
  match mapOption (fun r => (astypeFloatCell r.Runtime).map
      (fun v => { r with Runtime := v })) t with
  | some t' => t'
  | none => t

/-- Line 13: `data['Runtime'] = data['Runtime'].str.replace(' min', '').astype(float, errors='ignore')`. -/
def cleanRuntime (t : List Row) : List Row :=
  astypeRuntime (t.map fun r => { r with Runtime := stripMin r.Runtime })

/-- Line 14: `data['Released_Year'] = pd.to_numeric(data['Released_Year'], errors='coerce')`. -/
def cleanYear (t : List Row) : List Row :=
  t.map fun r => { r with Released_Year := toNumericCoerce r.Released_Year }

/-- The predicate of line 15's
`data.dropna(subset=['Released_Year', 'Gross'])`: a row is kept iff
neither of those two cells is null.  (A string cell — e.g. an
unconverted `"N/A"` — is *not* null.) -/
def keepRow (r : Row) : Bool :=
  !(r.Released_Year == Val.null) && !(r.Gross == Val.null)

/-- Line 15: the row-retention filter. -/
def dropNaYearGross (t : List Row) : List Row := t.filter keepRow

/-- Decade cell, `(y // 10) * 10`: Python float floor-division by 10,
then times 10.  For the exact value `q = q.num / q.den` this floor is
`q.num.fdiv (10 * q.den)` (`Int.fdiv` is floor division); the lemma
`fdiv_ten_eq_floor` below restates it as `⌊q / 10⌋`.  Python's
`nan // 10` is `nan` (null stays null; the column holds only numbers
or `NaN` at this point). -/
def decadeOf : Val → Val
  | .num q => .num ((Int.fdiv q.num (10 * (q.den : ℤ)) * 10 : ℤ) : ℚ)
  | _ => .null

/-- Line 18: `data['Decade'] = (data['Released_Year'] // 10) * 10`,
computed on the table that survived the retention filter. -/
def addDecade (t : List Row) : List Row :=
  t.map fun r => { r with Decade := decadeOf r.Released_Year }

/-- Lines 11-14: the column coercions, in source order, before the
retention filter. -/
def preCleaned (t : List Row) : List Row :=
  cleanYear (cleanRuntime (cleanVotes (cleanGross t)))

/-- Lines 11-18: the full cleaning pipeline, from the raw table to the
cleaned table with its `Decade` column. -/
def cleanedData (t : List Row) : List Row :=
  addDecade (dropNaYearGross (preCleaned t))

/-! ## Genre filter (lines 37-40) -/

/-- The non-null values of the `Genre` column, in row order
(`value_counts` skips `NaN`). -/
def genresOf (t : List Row) : List String :=
  t.filterMap fun r =>
    match r.Genre with
    | .str g => some g
    | _ => none

/-- Keep the first occurrence of each value, in order of first
appearance (the order of pandas' counting hash table). -/
def firstOccur : List String → List String
  | [] => []
  | g :: gs => g :: (firstOccur gs).filter (fun x => x ≠ g)

/-- The number of rows of `t` whose genre is the string `g`. -/
def genreCount (t : List Row) (g : String) : ℕ :=
  (genresOf t).count g

/-- Insert into a count-descending list, before the first entry with a
strictly smaller count (stable: existing entries with an equal count
stay in front... the inserted one goes first among later elements). -/
def insertByCount (p : String × ℕ) : List (String × ℕ) → List (String × ℕ)
  | [] => [p]
  | q :: qs => if q.2 < p.2 then p :: q :: qs else q :: insertByCount p qs

/-- Insertion sort by descending count. -/
def sortByCountDesc : List (String × ℕ) → List (String × ℕ)
  | [] => []
  | p :: ps => insertByCount p (sortByCountDesc ps)

/-- Line 38: `genre_counts = data['Genre'].value_counts()` — one entry
per distinct genre with its row count, sorted by descending count. -/
def genre_counts (t : List Row) : List (String × ℕ) :=
  sortByCountDesc ((firstOccur (genresOf t)).map fun g => (g, genreCount t g))

/-- Line 39:
`selected_genres = genre_counts[genre_counts > 10].index.tolist()` —
the names of the genres whose count strictly exceeds 10, in the order
of `genre_counts`. -/
def selected_genres (t : List Row) : List String :=
  ((genre_counts t).filter fun p => 10 < p.2).map Prod.fst

/-- Line 40: `data_filtered = data[data['Genre'].isin(selected_genres)]`. -/
def data_filtered (t : List Row) : List Row :=
  t.filter fun r => (selected_genres t).any fun g => r.Genre == .str g

/-! ## The facet-chart builder (lines 24-35, 85-113) -/

/-- Lines 24-35: the fixed genre → colour table `genre_colors`. -/
def genre_colors : List (String × String) :=
  [("Action", "#FF5733"), ("Adventure", "#33FF57"), ("Drama", "#337BFF"),
   ("Comedy", "#F39C12"), ("Horror", "#8E44AD"), ("Thriller", "#C0392B"),
   ("Animation", "#1ABC9C"), ("Sci-Fi", "#9B59B6"), ("Crime", "#34495E"),
   ("Romance", "#E74C3C")]

/-- A chart description: the data slice behind the traces plus the
encodings and styling `create_facet_chart` sets (lines 91-112). -/
structure Chart where
  rows : List Row
  xEnc : String
  yEnc : String
  hoverData : List String
  title : String
  labels : List (String × String)
  markerColor : String
  titleFontSize : ℕ
  titleX : ℚ
  paperBg : String
  plotBg : String
  fontColor : String
  marginT : ℕ
  marginB : ℕ
  marginL : ℕ
  marginR : ℕ
  height : ℕ
deriving DecidableEq, Repr

/-- Lines 85-113: `create_facet_chart(selected_genre)`.  The Python
function reads the module-level immutable `data_filtered` table; here
that table is the explicit first argument. -/
def create_facet_chart (dataFiltered : List Row) (selected_genre : String) :
    Chart :=
  let filtered_data := dataFiltered.filter fun r => r.Genre == .str selected_genre
  let selected_color := ((genre_colors.lookup selected_genre).getD "#337BFF")
  { rows := filtered_data
    xEnc := "Decade"
    yEnc := "IMDB_Rating"
    hoverData := ["Series_Title"]
    title := "IMDB Rating by Decade for " ++ selected_genre
    labels := [("Decade", "Decade"), ("IMDB_Rating", "Average IMDB Rating")]
    markerColor := selected_color
    titleFontSize := 18
    titleX := 4 / 10
    paperBg := "rgba(0,0,0,0)"
    plotBg := "rgba(0,0,0,0)"
    fontColor := "white"
    marginT := 40
    marginB := 30
    marginL := 30
    marginR := 30
    height := 400 }

/-! ## Dashboard shell (lines 134-178) -/

/-- Lines 153-163: the `dcc.Dropdown` control. -/
structure DropdownDef where
  ddId : String
  options : List (String × String)
  value : String
deriving DecidableEq, Repr

/-- Lines 173-178: one `@app.callback` binding. -/
structure CallbackDef where
  outputId : String
  outputProp : String
  inputId : String
  inputProp : String
  handler : String → Chart

/-- The parts of the Dash app the reactive behaviour depends on: the
genre selector and the app's registered callbacks. -/
structure AppModel where
  dropdown : DropdownDef
  callbacks : List CallbackDef

/-- Lines 134-178: build the app.  `value=selected_genres[0]`
(line 156) indexes the qualifying-genre list; on an empty list that
raises `IndexError` during layout construction, so startup fails
before serving (`none`).  The single callback wires the dropdown's
`value` to the `facet-chart` figure through `create_facet_chart`. -/
def mkApp (dataFiltered : List Row) (selectedGenres : List String) :
    Option AppModel :=
  (selectedGenres[0]?).map fun g0 =>
    { dropdown :=
        { ddId := "genre-dropdown"
          options := selectedGenres.map fun g => (g, g)
          value := g0 }
      callbacks :=
        [{ outputId := "facet-chart"
           outputProp := "figure"
           inputId := "genre-dropdown"
           inputProp := "value"
           handler := fun g => create_facet_chart dataFiltered g }] }

/-- Process startup (lines 7-178): clean the loaded table, derive the
genre filter, build the app. -/
def startApp (raw : List Row) : Option AppModel :=
  mkApp (data_filtered (cleanedData raw)) (selected_genres (cleanedData raw))

/-! ## Concrete tables used by the witness theorems -/

/-- A cleaned-shape table with genre counts
`{Drama: 50, Action: 15, Shortfilm: 3}` (the §4.2 scenario). -/
def scenarioTable : List Row :=
  List.replicate 50 { Genre := .str "Drama" } ++
  List.replicate 15 { Genre := .str "Action" } ++
  List.replicate 3 { Genre := .str "Shortfilm" }


/-- The raw single-row table behind the cleaning witnesses: a film
with a parseable gross (no currency symbol) and year. -/
def witnessRaw : List Row :=
  [{ Series_Title := .str "A", Genre := .str "Drama",
     Released_Year := .str "1999", Runtime := .str "142 min",
     Gross := .str "1,234,567", IMDB_Rating := .num 8 }]

/-- The cleaned form of `witnessRaw`'s row. -/
def witnessClean : Row :=
  { Series_Title := .str "A", Genre := .str "Drama",
    Released_Year := .num 1999, Runtime := .num 142,
    Gross := .num 1234567, IMDB_Rating := .num 8, Decade := .num 1990 }

/-- The `AppModel` that `mkApp` builds from an empty filtered table
and the single qualifying genre `"Drama"`. -/
def appDrama : AppModel :=
  { dropdown :=
      { ddId := "genre-dropdown"
        options := [("Drama", "Drama")]
        value := "Drama" }
    callbacks :=
      [{ outputId := "facet-chart"
         outputProp := "figure"
         inputId := "genre-dropdown"
         inputProp := "value"
         handler := fun g => create_facet_chart [] g }] }

/-! ## Helper lemmas -/

lemma mapOption_eq_map {α β : Type} (f : α → Option β) (g : α → β)
    (l : List α) (h : ∀ a ∈ l, f a = some (g a)) :
    mapOption f l = some (l.map g) := by
  induction l with
  | nil => rfl
  | cons a l ih =>
      have ha := h a (List.mem_cons_self a l)
      have hl := ih fun x hx => h x (List.mem_cons_of_mem _ hx)
      simp [mapOption, ha, hl]

lemma mem_firstOccur (g : String) (l : List String) :
    g ∈ firstOccur l ↔ g ∈ l := by
  induction l with
  | nil => simp [firstOccur]
  | cons a l ih =>
      by_cases hga : g = a
      · subst hga; simp [firstOccur]
      · simp [firstOccur, List.mem_cons, List.mem_filter, ih, hga]

lemma mem_insertByCount (x p : String × ℕ) (l : List (String × ℕ)) :
    x ∈ insertByCount p l ↔ x = p ∨ x ∈ l := by
  induction l with
  | nil => simp [insertByCount]
  | cons q qs ih =>
      by_cases hq : q.2 < p.2
      · simp only [insertByCount, if_pos hq, List.mem_cons]
      · simp only [insertByCount, if_neg hq, List.mem_cons, ih]
        tauto

lemma mem_sortByCountDesc (x : String × ℕ) (l : List (String × ℕ)) :
    x ∈ sortByCountDesc l ↔ x ∈ l := by
  induction l with
  | nil => simp [sortByCountDesc]
  | cons p ps ih =>
      simp only [sortByCountDesc, mem_insertByCount, ih, List.mem_cons]

lemma sorted_insertByCount (p : String × ℕ) (l : List (String × ℕ))
    (h : l.Sorted fun a b => b.2 ≤ a.2) :
    (insertByCount p l).Sorted fun a b => b.2 ≤ a.2 := by
  induction l with
  | nil => simp [insertByCount]
  | cons q qs ih =>
      by_cases hq : q.2 < p.2
      · simp only [insertByCount, if_pos hq, List.sorted_cons]
        refine ⟨?_, List.sorted_cons.mp h⟩
        intro b hb
        rcases List.mem_cons.mp hb with rfl | hb'
        · exact Nat.le_of_lt hq
        · exact le_trans ((List.sorted_cons.mp h).1 b hb') (Nat.le_of_lt hq)
      · rw [List.sorted_cons] at h
        simp only [insertByCount, if_neg hq, List.sorted_cons]
        refine ⟨?_, ih h.2⟩
        intro b hb
        rcases (mem_insertByCount b p qs).mp hb with rfl | hb'
        · exact Nat.le_of_not_lt hq
        · exact h.1 b hb'

lemma sorted_genre_counts (t : List Row) :
    (genre_counts t).Sorted fun a b => b.2 ≤ a.2 := by
  unfold genre_counts
  generalize (firstOccur (genresOf t)).map (fun g => (g, genreCount t g)) = l
  induction l with
  | nil => simp [sortByCountDesc]
  | cons p ps ih => exact sorted_insertByCount p _ ih

lemma mem_selected_genres (t : List Row) (g : String) :
    g ∈ selected_genres t ↔ 10 < genreCount t g := by
  unfold selected_genres genre_counts
  rw [List.mem_map]
  constructor
  · rintro ⟨p, hp, rfl⟩
    rw [List.mem_filter] at hp
    obtain ⟨hp1, hp2⟩ := hp
    rw [mem_sortByCountDesc, List.mem_map] at hp1
    obtain ⟨a, _, rfl⟩ := hp1
    simpa using hp2
  · intro hgt
    have hg : g ∈ genresOf t := by
      have hpos : 0 < (genresOf t).count g := lt_trans (by norm_num) hgt
      exact List.count_pos_iff.mp hpos
    refine ⟨(g, genreCount t g), ?_, rfl⟩
    rw [List.mem_filter]
    refine ⟨?_, by simpa using hgt⟩
    rw [mem_sortByCountDesc, List.mem_map]
    exact ⟨g, (mem_firstOccur g _).mpr hg, rfl⟩

lemma mem_data_filtered (t : List Row) (r : Row) :
    r ∈ data_filtered t ↔
      r ∈ t ∧ ∃ g ∈ selected_genres t, r.Genre = .str g := by
  unfold data_filtered
  rw [List.mem_filter]
  simp [List.any_eq_true, beq_iff_eq]

lemma keepRow_iff (r : Row) :
    keepRow r = true ↔ r.Released_Year ≠ .null ∧ r.Gross ≠ .null := by
  simp [keepRow]

lemma fdiv_ten_eq_floor (q : ℚ) :
    q.num.fdiv (10 * (q.den : ℤ)) = ⌊q / 10⌋ := by
  have h1 : q / 10 = (q.num : ℚ) / ((q.den * 10 : ℕ) : ℚ) := by
    conv_lhs => rw [← Rat.num_div_den q]
    push_cast
    rw [div_div]
  have h2 : ⌊q / 10⌋ = q.num / ((q.den * 10 : ℕ) : ℤ) := by
    rw [h1]
    exact Rat.floor_intCast_div_natCast q.num (q.den * 10)
  rw [h2, ← Int.fdiv_eq_ediv _ (by positivity)]
  congr 1
  push_cast
  ring

lemma mem_cleanedData (t : List Row) (r : Row) :
    r ∈ cleanedData t ↔ ∃ r₀ ∈ preCleaned t, keepRow r₀ = true ∧
      r = { r₀ with Decade := decadeOf r₀.Released_Year } := by
  unfold cleanedData addDecade dropNaYearGross
  rw [List.mem_map]
  constructor
  · rintro ⟨r₀, h0, rfl⟩
    rw [List.mem_filter] at h0
    exact ⟨r₀, h0.1, h0.2, rfl⟩
  · rintro ⟨r₀, h1, h2, rfl⟩
    exact ⟨r₀, List.mem_filter.mpr ⟨h1, h2⟩, rfl⟩

lemma year_shape (t : List Row) (r : Row) (h : r ∈ preCleaned t) :
    r.Released_Year = .null ∨ ∃ q : ℚ, r.Released_Year = .num q := by
  unfold preCleaned cleanYear at h
  rw [List.mem_map] at h
  obtain ⟨r₀, _, rfl⟩ := h
  have hpr : ({ r₀ with Released_Year := toNumericCoerce r₀.Released_Year }
      : Row).Released_Year = toNumericCoerce r₀.Released_Year := rfl
  rw [hpr]
  rcases r₀.Released_Year with _ | s | q
  · left; rfl
  · rcases hp : parseFloat? s with _ | q
    · left; simp [toNumericCoerce, hp]
    · right; exact ⟨q, by simp [toNumericCoerce, hp]⟩
  · right; exact ⟨q, rfl⟩

lemma mapOption_length {α β : Type} (f : α → Option β) (l : List α) :
    ∀ l' : List β, mapOption f l = some l' → l'.length = l.length := by
  induction l with
  | nil =>
      intro l' h
      simp only [mapOption, Option.some.injEq] at h
      subst h
      rfl
  | cons a l ih =>
      intro l' h
      rcases hfa : f a with _ | b <;> rcases hml : mapOption f l with _ | bs <;>
        simp [mapOption, hfa, hml] at h
      subst h
      simp [List.length_cons, ih bs hml]

lemma length_astypeGross (t : List Row) : (astypeGross t).length = t.length := by
  unfold astypeGross
  rcases hm : mapOption (fun r => (astypeFloatCell r.Gross).map
      fun v => { r with Gross := v }) t with _ | t'
  · rw [hm]
  · rw [hm]
    exact mapOption_length _ t t' hm

lemma length_astypeRuntime (t : List Row) :
    (astypeRuntime t).length = t.length := by
  unfold astypeRuntime
  rcases hm : mapOption (fun r => (astypeFloatCell r.Runtime).map
      fun v => { r with Runtime := v }) t with _ | t'
  · rw [hm]
  · rw [hm]
    exact mapOption_length _ t t' hm

lemma length_preCleaned (t : List Row) : (preCleaned t).length = t.length := by
  unfold preCleaned cleanYear cleanRuntime cleanVotes cleanGross
  simp [List.length_map, length_astypeGross, length_astypeRuntime]

/-! ## Claim theorems -/

/-- C1 (code bug).  The spec says the Gross step strips thousands
separators and currency symbols and that a `"N/A"` gross row is
dropped.  In the code, `.replace('$', '', regex=True)` is an
end-of-string anchor substitution that removes nothing, the
whole-column `astype(float, errors='ignore')` then fails and leaves
every Gross cell a string, and the non-null string `"N/A"` survives
`dropna`: on the two-row input below, `"$1,234,567"` becomes the
string `"$1234567"` (not the number 1234567.0) and the `"N/A"` row is
retained. -/
theorem C1_gross_cleaning_code_bug :
    (cleanedData
        [{ Gross := .str "$1,234,567", Released_Year := .str "1999" },
         { Gross := .str "N/A", Released_Year := .str "2000" }]).map Row.Gross
      = [.str "$1234567", .str "N/A"] ∧
    (cleanedData
        [{ Gross := .str "$1,234,567", Released_Year := .str "1999" },
         { Gross := .str "N/A", Released_Year := .str "2000" }]).length = 2 := by
  decide

/-- C2.  A genre is in `selected_genres` iff its row count strictly
exceeds 10; `genre_counts` is ordered by descending frequency;
`data_filtered` is exactly the rows whose genre is in the qualifying
list; and a table with genre counts Drama 50, Action 15, Shortfilm 3
yields the qualifying list `["Drama", "Action"]`. -/
theorem C2_genre_filter (t : List Row) :
    (∀ g, g ∈ selected_genres t ↔ 10 < genreCount t g) ∧
    ((genre_counts t).Sorted fun a b => b.2 ≤ a.2) ∧
    (∀ r, r ∈ data_filtered t ↔
        r ∈ t ∧ ∃ g ∈ selected_genres t, r.Genre = .str g) ∧
    selected_genres scenarioTable = ["Drama", "Action"] :=
  ⟨fun g => mem_selected_genres t g, sorted_genre_counts t,
    fun r => mem_data_filtered t r, by decide⟩

/-- C3.  Every row of the cleaned table has a numeric released year
`q`; its decade equals `⌊q / 10⌋ * 10`, an integer value and a
multiple of 10; and the decade is attached only to rows that already
passed the retention filter (their year and gross are non-null). -/
theorem C3_decade (t : List Row) (r : Row) (h : r ∈ cleanedData t) :
    ∃ q : ℚ, r.Released_Year = .num q ∧
      ∃ z : ℤ, r.Decade = .num (z : ℚ) ∧ z = ⌊q / 10⌋ * 10 ∧
        (10 : ℤ) ∣ z ∧ r.Released_Year ≠ .null ∧ r.Gross ≠ .null := by
  rw [mem_cleanedData] at h
  obtain ⟨r₀, h0, hk, rfl⟩ := h
  have hk' := (keepRow_iff r₀).mp hk
  rcases year_shape t r₀ h0 with hnull | ⟨q, hq⟩
  · exact absurd hnull hk'.1
  · refine ⟨q, hq, q.num.fdiv (10 * q.den) * 10, ?_, ?_, ?_, hk'.1, hk'.2⟩
    · show decadeOf r₀.Released_Year = _
      rw [hq, decadeOf]
    · rw [fdiv_ten_eq_floor]
    · exact dvd_mul_left 10 _

/-- Witness for C3: the concrete cleaned row of `witnessRaw` (year
1999, decade 1990). -/
theorem C3_decade_witness :
    ∃ q : ℚ, witnessClean.Released_Year = .num q ∧
      ∃ z : ℤ, witnessClean.Decade = .num (z : ℚ) ∧ z = ⌊q / 10⌋ * 10 ∧
        (10 : ℤ) ∣ z ∧ witnessClean.Released_Year ≠ .null ∧
        witnessClean.Gross ≠ .null :=
  C3_decade witnessRaw witnessClean (by decide)

/-- C4.  After cleaning, every surviving row has a non-null released
year and a non-null gross; the retention filter keeps a row iff both
its parsed year and gross are non-null; and it is the only filtering
step: the parsing stages before it and the decade stage after it both
preserve the number of rows unconditionally. -/
theorem C4_row_retention (t : List Row) :
    (∀ r ∈ cleanedData t, r.Released_Year ≠ .null ∧ r.Gross ≠ .null) ∧
    (∀ r, r ∈ dropNaYearGross (preCleaned t) ↔
        r ∈ preCleaned t ∧ r.Released_Year ≠ .null ∧ r.Gross ≠ .null) ∧
    (preCleaned t).length = t.length ∧
    (cleanedData t).length = (dropNaYearGross (preCleaned t)).length := by
  refine ⟨?_, ?_, length_preCleaned t, ?_⟩
  · intro r h
    rw [mem_cleanedData] at h
    obtain ⟨r₀, _, hk, rfl⟩ := h
    exact (keepRow_iff r₀).mp hk
  · intro r
    unfold dropNaYearGross
    rw [List.mem_filter, keepRow_iff]
  · exact List.length_map _ _

/-- Witness for C4 at the concrete one-row table `witnessRaw`. -/
theorem C4_row_retention_witness :
    witnessClean.Released_Year ≠ .null ∧ witnessClean.Gross ≠ .null :=
  (C4_row_retention witnessRaw).1 witnessClean (by decide)

/-- C5.  The decade-bar builder is deterministic and pure: two calls
with the same genre and the same underlying filtered table give equal
charts, and the result depends only on the genre's matching row slice
of the table (the embedding passes the module-level `data_filtered`
and the constant `genre_colors` explicitly, so there is no shared
mutable state to read or write). -/
theorem C5_builder_pure (df df' : List Row) (g : String) (c₁ c₂ : Chart)
    (h₁ : c₁ = create_facet_chart df g) (h₂ : c₂ = create_facet_chart df g)
    (h₃ : df.filter (fun r => r.Genre == .str g)
        = df'.filter (fun r => r.Genre == .str g)) :
    c₁ = c₂ ∧ create_facet_chart df g = create_facet_chart df' g := by
  subst h₁
  subst h₂
  refine ⟨rfl, ?_⟩
  unfold create_facet_chart
  rw [h₃]

/-- Witness for C5: two calls at the genre "Action" agree, also across
two tables with the same (empty) "Action" slice. -/
theorem C5_builder_pure_witness :
    create_facet_chart [] "Action" = create_facet_chart [] "Action" ∧
    create_facet_chart [] "Action"
      = create_facet_chart [{ Genre := Val.str "Drama" }] "Action" :=
  C5_builder_pure [] [{ Genre := Val.str "Drama" }] "Action" _ _ rfl rfl
    (by decide)

/-- C6.  The bar colour is the `genre_colors` lookup with fallback
'#337BFF' (the Drama colour): the genre "Horror" gives '#8E44AD', and
any genre absent from the colour table gives '#337BFF'. -/
theorem C6_bar_color (df : List Row) (g : String) :
    (create_facet_chart df g).markerColor
        = (genre_colors.lookup g).getD "#337BFF" ∧
    (genre_colors.lookup g = none →
        (create_facet_chart df g).markerColor = "#337BFF") ∧
    (create_facet_chart df "Horror").markerColor = "#8E44AD" := by
  refine ⟨rfl, ?_, rfl⟩
  intro h
  show (genre_colors.lookup g).getD "#337BFF" = "#337BFF"
  rw [h]
  rfl

/-- Witness for C6: the genre "Western" is absent from `genre_colors`,
so its bars get the Drama fallback colour. -/
theorem C6_bar_color_witness :
    (create_facet_chart [] "Western").markerColor = "#337BFF" :=
  (C6_bar_color [] "Western").2.1 rfl

/-- C7 counterexample.  The claim says a row with Runtime `"142 min"`
parses to 142.0 for every input table.  With a second row whose
runtime does not parse, the whole-column
`astype(float, errors='ignore')` fails, so the first row's runtime
stays the string `"142"`, not the number 142. -/
theorem C7_runtime_counterexample :
    (cleanedData
        [{ Runtime := .str "142 min", Released_Year := .str "1999",
           Gross := .str "100" },
         { Runtime := .str "abc", Released_Year := .str "2000",
           Gross := .str "200" }]).map Row.Runtime
      = [.str "142", .str "abc"] ∧
    Val.str "142" ≠ Val.num 142 := by
  decide

/-- C7 (amended).  The Runtime step deletes every `" min"` from string
cells (non-strings become null); if every stripped cell parses, the
whole column becomes numeric — a `"142 min"` cell then parses to
142.0 — otherwise the conversion error is suppressed and every cell
stays as its stripped string; and runtime never influences row
retention. -/
theorem C7_runtime_amended (t : List Row)
    (hall : ∀ r ∈ t, astypeFloatCell (stripMin r.Runtime) ≠ none) :
    cleanRuntime t = t.map (fun r =>
        { r with Runtime := (astypeFloatCell (stripMin r.Runtime)).getD .null }) ∧
    stripMin (.str "142 min") = .str "142" ∧
    astypeFloatCell (.str "142") = some (.num 142) ∧
    ∀ (r : Row) (v : Val), keepRow { r with Runtime := v } = keepRow r := by
  refine ⟨?_, by decide, by decide, fun r v => rfl⟩
  unfold cleanRuntime astypeRuntime
  have hm := mapOption_eq_map
      (fun r => (astypeFloatCell r.Runtime).map fun v => { r with Runtime := v })
      (fun r => { r with Runtime := (astypeFloatCell r.Runtime).getD .null })
      (t.map fun r => { r with Runtime := stripMin r.Runtime }) ?harg
  case harg =>
    intro r' hr'
    rw [List.mem_map] at hr'
    obtain ⟨r, hr, rfl⟩ := hr'
    rcases hc : astypeFloatCell (stripMin r.Runtime) with _ | w
    · exact absurd hc (hall r hr)
    · have hpr : ({ r with Runtime := stripMin r.Runtime } : Row).Runtime
          = stripMin r.Runtime := rfl
      show (astypeFloatCell
          ({ r with Runtime := stripMin r.Runtime } : Row).Runtime).map _ = _
      simp [hpr, hc]
  simp only [hm]
  simp only [List.map_map]
  rfl

/-- Witness for C7 (amended): the one-row table whose runtime
`"142 min"` strips and parses, so the column converts. -/
theorem C7_runtime_amended_witness :
    cleanRuntime witnessRaw = witnessRaw.map (fun r =>
        { r with Runtime := (astypeFloatCell (stripMin r.Runtime)).getD .null }) ∧
    stripMin (.str "142 min") = .str "142" ∧
    astypeFloatCell (.str "142") = some (.num 142) ∧
    ∀ (r : Row) (v : Val), keepRow { r with Runtime := v } = keepRow r :=
  C7_runtime_amended witnessRaw (by decide)

/-- C8.  When the app builds, the dropdown is the `genre-dropdown`
control whose options are exactly the qualifying-genre list (as
label/value pairs) and whose default value is that list's first
entry; and exactly one callback is registered: dropdown `value` in,
`facet-chart` `figure` out, computed by `create_facet_chart` — no
other input or output is wired. -/
theorem C8_selector_binding (df : List Row) (gs : List String) (a : AppModel)
    (h : mkApp df gs = some a) :
    a.dropdown.ddId = "genre-dropdown" ∧
    a.dropdown.options = gs.map (fun g => (g, g)) ∧
    gs.head? = some a.dropdown.value ∧
    a.callbacks.length = 1 ∧
    ∀ cb ∈ a.callbacks,
      cb.inputId = "genre-dropdown" ∧ cb.inputProp = "value" ∧
      cb.outputId = "facet-chart" ∧ cb.outputProp = "figure" ∧
      ∀ g, cb.handler g = create_facet_chart df g := by
  cases gs with
  | nil => simp [mkApp] at h
  | cons g0 gs' =>
      unfold mkApp at h
      rw [List.getElem?_cons_zero, Option.map_some'] at h
      have h2 := Option.some.inj h
      subst h2
      refine ⟨rfl, rfl, rfl, rfl, ?_⟩
      intro cb hcb
      cases hcb with
      | head => exact ⟨rfl, rfl, rfl, rfl, fun g => rfl⟩
      | tail _ hmem => cases hmem

/-- Witness for C8: the app built from the single qualifying genre
"Drama". -/
theorem C8_selector_binding_witness :
    appDrama.dropdown.options = [("Drama", "Drama")] ∧
    appDrama.callbacks.length = 1 ∧
    appDrama.dropdown.value = "Drama" :=
  ⟨(C8_selector_binding [] ["Drama"] appDrama rfl).2.1,
   (C8_selector_binding [] ["Drama"] appDrama rfl).2.2.2.1,
   (Option.some.inj (C8_selector_binding [] ["Drama"] appDrama rfl).2.2.1).symm⟩

/-- C9.  The builder is total in the genre argument: for any genre
string, also one matching no row of the filtered table, it performs no
validation and returns the chart built over the (possibly empty)
matching subset. -/
theorem C9_builder_total (df : List Row) (g : String) :
    (create_facet_chart df g).rows = df.filter (fun r => r.Genre == .str g) ∧
    ((∀ r ∈ df, r.Genre ≠ .str g) → (create_facet_chart df g).rows = []) := by
  refine ⟨rfl, fun h => ?_⟩
  show df.filter _ = []
  rw [List.filter_eq_nil_iff]
  intro r hr
  simpa using h r hr

/-- Witness for C9: the out-of-domain genre "Zzz" yields an empty
chart slice, with no failure. -/
theorem C9_builder_total_witness :
    (create_facet_chart [{ Genre := Val.str "Drama" }] "Zzz").rows = [] :=
  (C9_builder_total [{ Genre := Val.str "Drama" }] "Zzz").2 (by decide)

/-- C10.  Startup needs at least one qualifying genre: building the
app fails (the `selected_genres[0]` default raises) exactly when the
qualifying-genre list of the cleaned table is empty — there is no
empty-state handling — and in particular an empty raw table cannot
start. -/
theorem C10_empty_qualifying (raw : List Row) :
    (startApp raw = none ↔ selected_genres (cleanedData raw) = []) ∧
    startApp [] = none := by
  constructor
  · rcases h : selected_genres (cleanedData raw) with _ | ⟨g0, gs⟩
    · simp [startApp, mkApp, h]
    · simp [startApp, mkApp, h]
  · rfl
